import Mathlib

/-!
Shallow embedding of `src/pipecatlearn/v2/server.py`, a FastAPI relay
server bridging Twilio webhooks and a media-stream WebSocket to an
external bot runtime.

Modelling conventions:
- Environment variables (`os.getenv`) are `Option String`; Python
  truthiness (`not x`) treats both `none` and `some ""` as falsy.
- Python dict responses are association lists `List (String × PyVal)`,
  which records exactly the keys and their order.
- The Twilio SDK (`client.calls.create`, `client.calls(sid).fetch()`) is
  not part of this repository; it enters the model as an oracle function
  returning `Except String _` (error = the exception's message).
- `json.loads` likewise enters as an oracle `String → Except String Json`.
- A handler's outcome is `Except (Nat × String) α`: `.error (s, d)` is an
  HTTP error response with status `s` and detail `d`, `.ok` is the JSON
  body of a 200 response.
- Exceptions raised inside a `try` block are `Exc`: either an
  `HTTPException(status, detail)` raised by the handler itself or a
  provider exception carrying a message.  `str()` of a Starlette
  `HTTPException` is `"{status_code}: {detail}"`.
-/

/-- Python truthiness of an optional string: `None` and `""` are falsy. -/
def truthy : Option String → Bool
  | none => false
  | some s => s ≠ ""

/-- Python `a or b` on optional strings: `a` when truthy, else `b`. -/
def pyOr (a b : Option String) : Option String :=
  if truthy a then a else b

/-- A Python value appearing in a JSON response dict. -/
inductive PyVal where
  | pbool : Bool → PyVal
  | pstr : String → PyVal
  | pnone : PyVal
deriving DecidableEq, Repr

/-- Optional-aware injection of an optional string into `PyVal`. -/
def optVal : Option String → PyVal
  | none => PyVal.pnone
  | some s => PyVal.pstr s

/-- A JSON response body: an ordered dict of keys to values. -/
abbrev PyDict := List (String × PyVal)

/-- Environment configuration read at import time (lines 18–21). -/
structure Env where
  TWILIO_ACCOUNT_SID : Option String
  TWILIO_AUTH_TOKEN : Option String
  TWILIO_PHONE_NUMBER : Option String
  DEFAULT_TO_NUMBER : Option String

/-- The hardcoded absolute path of the static TwiML template (line 16). -/
def xml_path : String :=
  "/Users/rishavraj/Downloads/Codes/agentic-ai/pipecatlearn/v2/templates/streams.xml"

/-- An HTTP response with an explicit body and media type. -/
structure HttpResponse where
  body : String
  mediaType : String
deriving DecidableEq, Repr

/-- Endpoint `POST /` (lines 36–40): serve the template file's contents verbatim as
`application/xml`.  `fs` is the filesystem, mapping a path to the contents
`open(path).read()` returns. -/
def start_call (fs : String → String) : HttpResponse :=
  { body := fs xml_path, mediaType := "application/xml" }

/-- Endpoint `POST /outbound-twiml` (lines 86–90): identical body to `start_call`. -/
def outbound_twiml (fs : String → String) : HttpResponse :=
  { body := fs xml_path, mediaType := "application/xml" }

/-- An exception live inside a handler's `try` block: an `HTTPException`
raised by the handler itself, or an exception from the provider SDK. -/
inductive Exc where
  | http : Nat → String → Exc
  | provider : String → Exc
deriving DecidableEq, Repr

/-- Python `str(e)`.  Starlette's `HTTPException.__str__` renders
`"{status_code}: {detail}"`; a provider exception renders its message. -/
def excStr : Exc → String
  | .http s d => toString s ++ ": " ++ d
  | .provider m => m

/-- The call object returned by `client.calls.create` (lines 64–69). -/
structure CallCreated where
  sid : String
  status : String
deriving DecidableEq, Repr

/-- The `from_number = from_number or TWILIO_PHONE_NUMBER` resolution
(line 56). -/
def resolveFrom (qFrom : Option String) (env : Env) : Option String :=
  pyOr qFrom env.TWILIO_PHONE_NUMBER

/-- The `to_number` FastAPI parameter default (line 45): the query value
when supplied, else `DEFAULT_TO_NUMBER` (possibly `None`). -/
def resolveTo (qTo : Option String) (env : Env) : Option String :=
  match qTo with
  | some s => some s
  | none => env.DEFAULT_TO_NUMBER

/-- The body of the `try` block of `GET /outbound` (lines 50–80).
`create to from url` is the Twilio `client.calls.create` oracle. -/
def outboundBody (env : Env)
    (create : Option String → String → String → Except String CallCreated)
    (scheme netloc : String) (qTo qFrom : Option String) :
    Except Exc PyDict :=
  if !truthy env.TWILIO_ACCOUNT_SID || !truthy env.TWILIO_AUTH_TOKEN then
    .error (.http 500 "Twilio credentials not configured")
  else
    let to_number := resolveTo qTo env
    match resolveFrom qFrom env with
    | none => .error (.http 400 "From number not provided and no default configured")
    | some f =>
      if f = "" then
        .error (.http 400 "From number not provided and no default configured")
      else
        let base_url := scheme ++ "://" ++ netloc
        match create to_number f (base_url ++ "/outbound-twiml") with
        | .error m => .error (.provider m)
        | .ok call =>
          .ok [("success", .pbool true),
               ("call_sid", .pstr call.sid),
               ("status", .pstr call.status),
               ("to", optVal to_number),
               ("from", .pstr f),
               ("webhook_url", .pstr (base_url ++ "/outbound-twiml"))]

/-- Endpoint `GET /outbound` (lines 42–84): the `try` body with the blanket
`except Exception` (lines 82–84), which catches every exception raised in
the body — including the handler's own `HTTPException`s — and re-raises
`HTTPException(500, "Failed to initiate call: " + str(e))`. -/
def initiate_outbound_call (env : Env)
    (create : Option String → String → String → Except String CallCreated)
    (scheme netloc : String) (qTo qFrom : Option String) :
    Except (Nat × String) PyDict :=
  match outboundBody env create scheme netloc qTo qFrom with
  | .ok d => .ok d
  | .error e => .error (500, "Failed to initiate call: " ++ excStr e)

/-- The call record returned by `client.calls(call_sid).fetch()`
(line 100); fields may be `None` at the provider, hence `PyVal`. -/
structure CallRecord where
  sid : PyVal
  status : PyVal
  direction : PyVal
  «to» : PyVal
  duration : PyVal
  start_time : PyVal
  end_time : PyVal
deriving DecidableEq, Repr

/-- The body of the `try` block of `GET /call-status/{call_sid}`
(lines 96–110).  `fetch` is the Twilio fetch oracle. -/
def statusBody (env : Env) (fetch : String → Except String CallRecord)
    (call_sid : String) : Except Exc PyDict :=
  if !truthy env.TWILIO_ACCOUNT_SID || !truthy env.TWILIO_AUTH_TOKEN then
    .error (.http 500 "Twilio credentials not configured")
  else
    match fetch call_sid with
    | .error m => .error (.provider m)
    | .ok call =>
      .ok [("call_sid", call.sid),
           ("status", call.status),
           ("direction", call.direction),
           ("to", call.«to»),
           ("duration", call.duration),
           ("start_time", call.start_time),
           ("end_time", call.end_time)]

/-- Endpoint `GET /call-status/{call_sid}` (lines 92–113): the `try` body with the
blanket `except Exception` (lines 111–113) re-raising
`HTTPException(500, "Failed to fetch call status: " + str(e))`. -/
def get_call_status (env : Env) (fetch : String → Except String CallRecord)
    (call_sid : String) : Except (Nat × String) PyDict :=
  match statusBody env fetch call_sid with
  | .ok d => .ok d
  | .error e => .error (500, "Failed to fetch call status: " ++ excStr e)

/-- A JSON value, as produced by `json.loads`. -/
inductive Json where
  | jnull : Json
  | jbool : Bool → Json
  | jnum : Int → Json
  | jstr : String → Json
  | jarr : List Json → Json
  | jobj : List (String × Json) → Json

/-- Python dict subscript `j[k]` as a partial lookup: `none` when `j` is
not an object (TypeError) or the key is absent (KeyError). -/
def Json.getKey : Json → String → Option Json
  | .jobj kvs, k => kvs.lookup k
  | _, _ => none

/-- The arguments the `/ws` handler passes to `run_bot` (line 126), after
the websocket object itself: `run_bot(websocket, stream_sid, call_sid,
app.state.testing)`, in that order. -/
structure RunBotCall where
  streamSid : Json
  callSid : Json
  testing : Bool

/-- How the `/ws` handler can fail before reaching `run_bot`. -/
inductive WsErr where
  | disconnected : WsErr
  | jsonError : String → WsErr
  | keyError : WsErr

/-- Endpoint `WebSocket /ws` (lines 116–126): accept, discard the first text frame,
`json.loads` the second, read `["start"]["streamSid"]` and
`["start"]["callSid"]`, then call `run_bot`.  `parse` is the `json.loads`
oracle; `frames` the incoming text frames; the result records the
arguments of the single `run_bot` invocation, or the unhandled error. -/
def websocket_endpoint (parse : String → Except String Json)
    (testing : Bool) (frames : List String) : Except WsErr RunBotCall :=
  match frames with
  | [] => .error .disconnected
  | [_] => .error .disconnected
  | _ :: f2 :: _ =>
    match parse f2 with
    | .error m => .error (.jsonError m)
    | .ok call_data =>
      match call_data.getKey "start" with
      | none => .error .keyError
      | some startObj =>
        match startObj.getKey "streamSid" with
        | none => .error .keyError
        | some stream_sid =>
          match startObj.getKey "callSid" with
          | none => .error .keyError
          | some call_sid => .ok ⟨stream_sid, call_sid, testing⟩

/-- The mutable server state `app.state`. -/
structure AppState where
  testing : Bool

/-- Function `main()` (lines 128–139): the argparse block is commented out and
`app.state.testing = True` is set unconditionally before `uvicorn.run`.
(Named `server_main` because a Lean `main` must have an IO type.) -/
def server_main (s : AppState) : AppState :=
  { s with testing := true }

/-! ## Helper lemmas -/

/-- Characterisation of a successful `/ws` run on at least two frames:
`run_bot` is reached exactly when the second frame parses and both
identifiers are found under `"start"`, and the arguments are those
values together with the testing flag. -/
theorem ws_ok_char (parse : String → Except String Json) (testing : Bool)
    (f1 f2 : String) (rest : List String) (r : RunBotCall) :
    websocket_endpoint parse testing (f1 :: f2 :: rest) = Except.ok r ↔
      ∃ j s, parse f2 = Except.ok j ∧ Json.getKey j "start" = some s ∧
        Json.getKey s "streamSid" = some r.streamSid ∧
        Json.getKey s "callSid" = some r.callSid ∧ r.testing = testing := by
  obtain ⟨rs, rc, rt⟩ := r
  simp only [websocket_endpoint]
  cases hp : parse f2 with
  | error m => simp [hp]
  | ok j =>
    cases hs : Json.getKey j "start" with
    | none => simp [hp, hs]
    | some s =>
      cases h1 : Json.getKey s "streamSid" with
      | none => simp [hp, hs, h1]
      | some ss =>
        cases h2 : Json.getKey s "callSid" with
        | none => simp [hp, hs, h1, h2]
        | some cs =>
          simp only [hp, hs, h1, h2]
          constructor
          · intro h
            cases h
            exact ⟨j, s, rfl, hs, h1, h2, rfl⟩
          · rintro ⟨j2, s2, hj, hs2, hss, hcs, ht⟩
            cases hj
            rw [hs] at hs2
            cases hs2
            rw [h1] at hss
            cases hss
            rw [h2] at hcs
            cases hcs
            rw [ht]

/-- Whenever `/ws` reaches `run_bot`, the testing argument it passes is
exactly the flag the handler was given. -/
theorem ws_testing_eq (parse : String → Except String Json) (testing : Bool)
    (frames : List String) (r : RunBotCall)
    (h : websocket_endpoint parse testing frames = Except.ok r) :
    r.testing = testing := by
  match frames with
  | [] => simp [websocket_endpoint] at h
  | [f] => simp [websocket_endpoint] at h
  | f1 :: f2 :: rest =>
    rw [ws_ok_char] at h
    obtain ⟨_, _, _, _, _, _, ht⟩ := h
    exact ht

/-! ## Claim theorems -/

/-- C1: the claim states that a `GET /outbound` request with no
`from_number` and no configured `TWILIO_PHONE_NUMBER` yields HTTP 400.
The handler does raise `HTTPException(400, ...)` (line 58), but the
blanket `except Exception` (lines 82–84) catches that very exception and
re-raises it as a 500, so the client receives HTTP 500, not 400.  This
theorem evaluates the handler at such a request: credentials configured,
`from_number` absent, `TWILIO_PHONE_NUMBER` unset, a provider that would
succeed — and the response status is 500. -/
theorem outbound_missing_from_returns_500_not_400 :
    initiate_outbound_call ⟨some "AC123", some "token123", none, none⟩
      (fun _ _ _ => Except.ok ⟨"CA123", "queued"⟩) "http" "example.com"
      (some "+15551234567") none =
    Except.error (500,
      "Failed to initiate call: 400: From number not provided and no default configured") := by
  rfl

/-- C2: every `GET /outbound` request made while a Twilio credential is
missing, and every request on which the provider's call creation raises,
ends in an HTTP 500 whose detail wraps the underlying error message
(prefixed `"Failed to initiate call: "`), and no success JSON is
returned (the result is `.error`, never `.ok`). -/
theorem outbound_errors_wrapped_500 (env : Env)
    (create : Option String → String → String → Except String CallCreated)
    (scheme netloc : String) (qTo qFrom : Option String) :
    ((truthy env.TWILIO_ACCOUNT_SID = false ∨ truthy env.TWILIO_AUTH_TOKEN = false) →
      initiate_outbound_call env create scheme netloc qTo qFrom =
        Except.error (500, "Failed to initiate call: 500: Twilio credentials not configured")) ∧
    (∀ f msg, truthy env.TWILIO_ACCOUNT_SID = true → truthy env.TWILIO_AUTH_TOKEN = true →
      resolveFrom qFrom env = some f → f ≠ "" →
      create (resolveTo qTo env) f (scheme ++ "://" ++ netloc ++ "/outbound-twiml") =
        Except.error msg →
      initiate_outbound_call env create scheme netloc qTo qFrom =
        Except.error (500, "Failed to initiate call: " ++ msg)) := by
  constructor
  · intro h
    unfold initiate_outbound_call outboundBody
    rcases h with h | h <;> simp [h, excStr] <;> rfl
  · intro f msg h1 h2 h3 h4 h5
    unfold initiate_outbound_call outboundBody
    simp [h1, h2, h3, h4, h5, excStr]

/-- Witness for C2: concrete missing-credential and provider-exception
requests both produce the wrapped 500. -/
theorem outbound_errors_wrapped_500_witness :
    initiate_outbound_call ⟨none, some "token123", some "+15550001111", none⟩
      (fun _ _ _ => Except.ok ⟨"CA123", "queued"⟩) "http" "example.com" none none =
      Except.error (500, "Failed to initiate call: 500: Twilio credentials not configured") ∧
    initiate_outbound_call ⟨some "AC123", some "token123", some "+15550001111", none⟩
      (fun _ _ _ => Except.error "Unable to create record") "http" "example.com"
      (some "+15551234567") none =
      Except.error (500, "Failed to initiate call: Unable to create record") :=
  ⟨(outbound_errors_wrapped_500 _ _ _ _ _ _).1 (Or.inl rfl),
   (outbound_errors_wrapped_500 _ _ _ _ _ _).2 "+15550001111" "Unable to create record"
     rfl rfl rfl (by decide) rfl⟩

/-- C3: every `GET /outbound` request with credentials configured, a
resolved (truthy) from number `f`, and a provider call creation returning
a call with sid `sid` and status `st`, answers the JSON object with
exactly the keys `success, call_sid, status, to, from, webhook_url`;
`success` is `True`, `call_sid`/`status` come from the created call, `to`
is the requested `to_number` (query value or environment default), `from`
is `f` (the provided `from_number` or else the configured default), and
`webhook_url` is `scheme://netloc/outbound-twiml`. -/
theorem outbound_success_shape (env : Env)
    (create : Option String → String → String → Except String CallCreated)
    (scheme netloc : String) (qTo qFrom : Option String) (f sid st : String)
    (h1 : truthy env.TWILIO_ACCOUNT_SID = true)
    (h2 : truthy env.TWILIO_AUTH_TOKEN = true)
    (h3 : resolveFrom qFrom env = some f) (h4 : f ≠ "")
    (h5 : create (resolveTo qTo env) f (scheme ++ "://" ++ netloc ++ "/outbound-twiml") =
      Except.ok ⟨sid, st⟩) :
    initiate_outbound_call env create scheme netloc qTo qFrom =
      Except.ok [("success", PyVal.pbool true),
                 ("call_sid", PyVal.pstr sid),
                 ("status", PyVal.pstr st),
                 ("to", optVal (resolveTo qTo env)),
                 ("from", PyVal.pstr f),
                 ("webhook_url", PyVal.pstr (scheme ++ "://" ++ netloc ++ "/outbound-twiml"))] := by
  unfold initiate_outbound_call outboundBody
  simp [h1, h2, h3, h4, h5]

/-- Witness for C3: a concrete successful outbound request. -/
theorem outbound_success_shape_witness :
    initiate_outbound_call ⟨some "AC123", some "token123", some "+15550001111", none⟩
      (fun _ _ _ => Except.ok ⟨"CA123", "queued"⟩) "https" "host.example"
      (some "+15551234567") none =
      Except.ok [("success", PyVal.pbool true),
                 ("call_sid", PyVal.pstr "CA123"),
                 ("status", PyVal.pstr "queued"),
                 ("to", optVal (some "+15551234567")),
                 ("from", PyVal.pstr "+15550001111"),
                 ("webhook_url", PyVal.pstr "https://host.example/outbound-twiml")] :=
  outbound_success_shape ⟨some "AC123", some "token123", some "+15550001111", none⟩
    (fun _ _ _ => Except.ok ⟨"CA123", "queued"⟩) "https" "host.example"
    (some "+15551234567") none "+15550001111" "CA123" "queued"
    rfl rfl rfl (by decide) rfl

/-- C6: the response of `POST /outbound-twiml` is identical to the
response of `POST /`: same body (the template file's contents) and same
media type, for every filesystem state. -/
theorem outbound_twiml_eq_start_call (fs : String → String) :
    outbound_twiml fs = start_call fs := rfl

/-- C7: `POST /` returns the contents of the XML template file at the
hardcoded absolute path, unmodified, with content type
`application/xml`. -/
theorem start_call_serves_template (fs : String → String) :
    start_call fs = { body := fs xml_path, mediaType := "application/xml" } ∧
    xml_path =
      "/Users/rishavraj/Downloads/Codes/agentic-ai/pipecatlearn/v2/templates/streams.xml" :=
  ⟨rfl, rfl⟩

/-- C8: a `GET /outbound` request without `to_number` behaves exactly as
one whose `to_number` is the `DEFAULT_TO_NUMBER` environment value
(possibly absent): the parameter is optional with an environment-supplied
default, and the handler never rejects a request for lacking it. -/
theorem outbound_to_number_optional (env : Env)
    (create : Option String → String → String → Except String CallCreated)
    (scheme netloc : String) (qFrom : Option String) :
    initiate_outbound_call env create scheme netloc none qFrom =
      initiate_outbound_call env create scheme netloc env.DEFAULT_TO_NUMBER qFrom ∧
    resolveTo none env = env.DEFAULT_TO_NUMBER := by
  obtain ⟨a, b, p, d⟩ := env
  cases d <;> simp [initiate_outbound_call, outboundBody, resolveTo]

/-- C4: on a `/ws` connection delivering a handshake frame and then a
`"start"` frame, the handler discards the first frame, parses the second
as JSON, extracts `streamSid` and `callSid` from its `"start"` object,
and invokes `run_bot` once with the websocket, those two identifiers and
the process-wide testing flag, in that order (`RunBotCall` records the
arguments after the websocket object itself).  The first frame `f1` and
any frames beyond the second (`rest`) are universally quantified and do
not influence the result: exactly two frames are read. -/
theorem ws_forwards_identifiers (parse : String → Except String Json)
    (testing : Bool) (f1 f2 : String) (rest : List String) (j s ss cs : Json)
    (hp : parse f2 = Except.ok j) (hs : Json.getKey j "start" = some s)
    (h1 : Json.getKey s "streamSid" = some ss)
    (h2 : Json.getKey s "callSid" = some cs) :
    websocket_endpoint parse testing (f1 :: f2 :: rest) =
      Except.ok ⟨ss, cs, testing⟩ := by
  simp only [websocket_endpoint, hp, hs, h1, h2]

/-- Witness for C4: a concrete two-frame session. -/
theorem ws_forwards_identifiers_witness :
    websocket_endpoint
      (fun _ => Except.ok (Json.jobj
        [("start", Json.jobj
          [("streamSid", Json.jstr "MZ123"), ("callSid", Json.jstr "CA123")])]))
      true ["handshake", "startframe"] =
      Except.ok ⟨Json.jstr "MZ123", Json.jstr "CA123", true⟩ :=
  ws_forwards_identifiers _ true "handshake" "startframe" [] _ _ _ _
    rfl rfl rfl rfl

/-- C5: `GET /call-status/{call_sid}` with credentials configured and a
successful provider fetch answers the JSON object with exactly the fields
`call_sid, status, direction, to, duration, start_time, end_time`
projected from the fetched call; with a credential missing, or with the
provider fetch raising, it answers HTTP 500. -/
theorem call_status_behavior (env : Env)
    (fetch : String → Except String CallRecord) (call_sid : String) :
    (∀ c, truthy env.TWILIO_ACCOUNT_SID = true → truthy env.TWILIO_AUTH_TOKEN = true →
      fetch call_sid = Except.ok c →
      get_call_status env fetch call_sid =
        Except.ok [("call_sid", c.sid), ("status", c.status),
                   ("direction", c.direction), ("to", c.«to»),
                   ("duration", c.duration), ("start_time", c.start_time),
                   ("end_time", c.end_time)]) ∧
    ((truthy env.TWILIO_ACCOUNT_SID = false ∨ truthy env.TWILIO_AUTH_TOKEN = false) →
      get_call_status env fetch call_sid =
        Except.error (500, "Failed to fetch call status: 500: Twilio credentials not configured")) ∧
    (∀ m, truthy env.TWILIO_ACCOUNT_SID = true → truthy env.TWILIO_AUTH_TOKEN = true →
      fetch call_sid = Except.error m →
      get_call_status env fetch call_sid =
        Except.error (500, "Failed to fetch call status: " ++ m)) := by
  refine ⟨?_, ?_, ?_⟩
  · intro c h1 h2 h3
    unfold get_call_status statusBody
    simp [h1, h2, h3]
  · intro h
    unfold get_call_status statusBody
    rcases h with h | h <;> simp [h, excStr] <;> rfl
  · intro m h1 h2 h3
    unfold get_call_status statusBody
    simp [h1, h2, h3, excStr]

/-- Witness for C5: concrete successful, missing-credential and
provider-failure status lookups. -/
theorem call_status_behavior_witness :
    get_call_status ⟨some "AC123", some "token123", none, none⟩
      (fun _ => Except.ok ⟨PyVal.pstr "CA123", PyVal.pstr "completed",
        PyVal.pstr "outbound-api", PyVal.pstr "+15551234567",
        PyVal.pstr "42", PyVal.pstr "t0", PyVal.pnone⟩) "CA123" =
      Except.ok [("call_sid", PyVal.pstr "CA123"),
                 ("status", PyVal.pstr "completed"),
                 ("direction", PyVal.pstr "outbound-api"),
                 ("to", PyVal.pstr "+15551234567"),
                 ("duration", PyVal.pstr "42"),
                 ("start_time", PyVal.pstr "t0"),
                 ("end_time", PyVal.pnone)] ∧
    get_call_status ⟨some "", some "token123", none, none⟩
      (fun _ => Except.error "not found") "CA123" =
      Except.error (500, "Failed to fetch call status: 500: Twilio credentials not configured") ∧
    get_call_status ⟨some "AC123", some "token123", none, none⟩
      (fun _ => Except.error "not found") "CA404" =
      Except.error (500, "Failed to fetch call status: not found") :=
  ⟨(call_status_behavior ⟨some "AC123", some "token123", none, none⟩
      (fun _ => Except.ok ⟨PyVal.pstr "CA123", PyVal.pstr "completed",
        PyVal.pstr "outbound-api", PyVal.pstr "+15551234567",
        PyVal.pstr "42", PyVal.pstr "t0", PyVal.pnone⟩) "CA123").1
      ⟨PyVal.pstr "CA123", PyVal.pstr "completed",
        PyVal.pstr "outbound-api", PyVal.pstr "+15551234567",
        PyVal.pstr "42", PyVal.pstr "t0", PyVal.pnone⟩ rfl rfl rfl,
   (call_status_behavior ⟨some "", some "token123", none, none⟩
      (fun _ => Except.error "not found") "CA123").2.1 (Or.inl rfl),
   (call_status_behavior ⟨some "AC123", some "token123", none, none⟩
      (fun _ => Except.error "not found") "CA404").2.2 "not found" rfl rfl rfl⟩

/-- C9: `main()` unconditionally sets `app.state.testing = True` before
running the server (the argparse alternative is commented out), so
whenever the `/ws` handler running under that state invokes `run_bot`,
the testing argument it passes is `True`. -/
theorem main_sets_testing_true (s : AppState) :
    (server_main s).testing = true ∧
    ∀ (parse : String → Except String Json) (frames : List String)
      (r : RunBotCall),
      websocket_endpoint parse (server_main s).testing frames = Except.ok r →
      r.testing = true := by
  refine ⟨rfl, ?_⟩
  intro parse frames r h
  exact ws_testing_eq parse _ frames r h

/-- Witness for C9: starting from a state with `testing = false`,
`main()` flips it to `True` and a concrete `/ws` session forwards
`True` to `run_bot`. -/
theorem main_sets_testing_true_witness :
    (server_main ⟨false⟩).testing = true ∧
    (⟨Json.jstr "MZ123", Json.jstr "CA123", true⟩ : RunBotCall).testing = true :=
  ⟨(main_sets_testing_true ⟨false⟩).1,
   (main_sets_testing_true ⟨false⟩).2
     (fun _ => Except.ok (Json.jobj
       [("start", Json.jobj
         [("streamSid", Json.jstr "MZ123"), ("callSid", Json.jstr "CA123")])]))
     ["handshake", "startframe"]
     ⟨Json.jstr "MZ123", Json.jstr "CA123", true⟩ rfl⟩

/-- C10: on a `/ws` connection, `run_bot` is invoked only when the second
frame parses as JSON and both `streamSid` and `callSid` are found under
its `"start"` key: any successful outcome exhibits the parsed object and
the two extracted identifiers, and if the second frame is not valid JSON
the handler ends in an unhandled error and `run_bot` is never invoked. -/
theorem ws_runbot_requires_extraction (parse : String → Except String Json)
    (testing : Bool) (f1 f2 : String) (rest : List String) :
    (∀ r, websocket_endpoint parse testing (f1 :: f2 :: rest) = Except.ok r →
      ∃ j s, parse f2 = Except.ok j ∧ Json.getKey j "start" = some s ∧
        Json.getKey s "streamSid" = some r.streamSid ∧
        Json.getKey s "callSid" = some r.callSid) ∧
    (∀ m, parse f2 = Except.error m →
      ∀ r, websocket_endpoint parse testing (f1 :: f2 :: rest) ≠ Except.ok r) := by
  constructor
  · intro r h
    obtain ⟨j, s, hp, hs, h1, h2, _⟩ := (ws_ok_char parse testing f1 f2 rest r).mp h
    exact ⟨j, s, hp, hs, h1, h2⟩
  · intro m hm r h
    obtain ⟨j, s, hp, _, _, _, _⟩ := (ws_ok_char parse testing f1 f2 rest r).mp h
    rw [hm] at hp
    exact Except.noConfusion hp

/-- Witness for C10: a session whose second frame fails to parse yields
no `run_bot` invocation. -/
theorem ws_runbot_requires_extraction_witness :
    websocket_endpoint (fun _ => Except.error "Expecting value") true
      ["handshake", "not json"] ≠
      Except.ok ⟨Json.jnull, Json.jnull, true⟩ :=
  (ws_runbot_requires_extraction (fun _ => Except.error "Expecting value")
    true "handshake" "not json" []).2 "Expecting value" rfl
    ⟨Json.jnull, Json.jnull, true⟩
